import Mathlib

/-!
Shallow embedding of the radstream repository's broadcast-lifecycle
reconciliation logic (YouTube Data API orchestration glue).

Conventions of the embedding:
* TypeScript values of type `string | undefined` become `Option String`;
  JavaScript truthiness of such a value (`!x`, `x || y`, `x && y`) is
  modelled by `truthy` / `jsOr` / `jsToStr` below (the empty string is
  falsy, like `undefined`).
* ISO date strings that the code only ever feeds to `Date.parse` are
  modelled as already-parsed `Option Int` millisecond timestamps, where
  `none` stands for an absent or empty field.
* `Date.now()` / `new Date()` is passed in explicitly as a `now : Int`
  millisecond clock value.
* Outbound mutating HTTP calls (insert / update / bind / transition) are
  recorded in an explicit call trace instead of being performed; read-only
  list/get calls are modelled by passing their response in as an argument.
* A thrown `Error` becomes an explicit error constructor carrying the
  calls issued before the throw.
-/

namespace Radstream

/-- JavaScript truthiness of a `string | undefined` value: `undefined` and
the empty string are falsy. -/
def truthy : Option String → Bool
  | none => false
  | some s => !(s == "")

/-- JavaScript `a || b` on `string | undefined` values. -/
def jsOr (a b : Option String) : Option String :=
  if truthy a then a else b

/-- JavaScript coercion `a || ""` of a `string | undefined` value to a
string, as used where the code needs a plain string. -/
def jsToStr (a : Option String) : String :=
  match a with
  | none => ""
  | some s => s

theorem truthy_iff (o : Option String) :
    truthy o = true ↔ ∃ s, o = some s ∧ s ≠ "" := by
  cases o with
  | none => simp [truthy]
  | some s => simp [truthy]

/-! ## Broadcast data model (YouTube `liveBroadcasts` resource)

Fields are restricted to the ones the verified functions read. The four
time fields are `Option Int` parsed timestamps (`none` = absent/empty). -/

structure Snippet where
  actualStartTime : Option Int
  scheduledStartTime : Option Int
  actualEndTime : Option Int
  publishedAt : Option Int
  title : String
  deriving DecidableEq, Repr

structure BroadcastStatus where
  lifeCycleStatus : String
  privacyStatus : String
  deriving DecidableEq, Repr

structure YouTubeLiveBroadcast where
  id : String
  snippet : Snippet
  status : BroadcastStatus
  deriving DecidableEq, Repr

/-! ## C1: pickMostRecentBroadcast

Variant A, `src/unnamed/part_010`: a fold keeping the strictly-largest
timestamp, where the timestamp of a broadcast is
`actualStartTime || scheduledStartTime || actualEndTime || publishedAt`
(first truthy field), else 0. -/

/-- Embeds `timeOf` from part_010: first non-empty of the four time
fields, `Date.parse`d, else `0`. -/
def timeOf (b : YouTubeLiveBroadcast) : Int :=
  (((b.snippet.actualStartTime.orElse fun _ => b.snippet.scheduledStartTime).orElse
      fun _ => b.snippet.actualEndTime).orElse fun _ => b.snippet.publishedAt).getD 0

/-- One iteration of part_010's `for (const b of items)` loop body: the
accumulator holds `newest`/`newestTs` (with `none` for the initial
`null` / `-Infinity` pair, over which any timestamp wins). -/
def pickStep (acc : Option (YouTubeLiveBroadcast × Int)) (b : YouTubeLiveBroadcast) :
    Option (YouTubeLiveBroadcast × Int) :=
  match acc with
  | none => some (b, timeOf b)
  | some (best, ts) => if timeOf b > ts then some (b, timeOf b) else some (best, ts)

/-- Embeds `pickMostRecentBroadcast` from `src/unnamed/part_010`. -/
def pickMostRecentBroadcast (items : Option (List YouTubeLiveBroadcast)) :
    Option YouTubeLiveBroadcast :=
  match items with
  | none => none
  | some l => if l.isEmpty then none else (l.foldl pickStep none).map Prod.fst

/-- Variant B timestamp, `src/src/youtube.ts`: only
`actualStartTime ?? publishedAt`, else `0`. -/
def ytTimeOf (b : YouTubeLiveBroadcast) : Int :=
  ((b.snippet.actualStartTime.orElse fun _ => b.snippet.publishedAt)).getD 0

/-- Stable insertion of one element into a newest-first list, as a stable
JS `Array.prototype.sort` with comparator `tb - ta` produces. -/
def sortInsertNewest (a : YouTubeLiveBroadcast) :
    List YouTubeLiveBroadcast → List YouTubeLiveBroadcast
  | [] => [a]
  | b :: l => if ytTimeOf b ≤ ytTimeOf a then a :: b :: l else b :: sortInsertNewest a l

/-- Newest-first stable sort used by the `src/src/youtube.ts` variant. -/
def sortNewestFirst : List YouTubeLiveBroadcast → List YouTubeLiveBroadcast
  | [] => []
  | a :: l => sortInsertNewest a (sortNewestFirst l)

/-- Embeds `pickMostRecentBroadcast` from `src/src/youtube.ts`: copy,
stable sort newest-first by `actualStartTime ?? publishedAt`, take the
first element. -/
def pickMostRecentBroadcast_yt (items : Option (List YouTubeLiveBroadcast)) :
    Option YouTubeLiveBroadcast :=
  match items with
  | none => none
  | some l => if l.isEmpty then none else (sortNewestFirst l).head?

/-! ## C2: humanizeStatus (identical in part_001 and part_002) -/

structure LabelColor where
  label : String
  color : String
  deriving DecidableEq, Repr

/-- Embeds `humanizeStatus`: the switch over the lifecycle status, whose
default branch returns the raw value with the gray color. -/
def humanizeStatus (s : String) : LabelColor :=
  if s = "live" then ⟨"Live", "#dc2626"⟩
  else if s = "created" ∨ s = "ready" ∨ s = "testing" then ⟨"Starting Soon", "#f59e0b"⟩
  else if s = "complete" then ⟨"Ended", "#16a34a"⟩
  else if s = "canceled" ∨ s = "revoked" then
    ⟨if s = "canceled" then "Canceled" else "Revoked", "#6b7280"⟩
  else ⟨s, "#6b7280"⟩

/-! ## C3: stream-status normalizers (two variants) -/

/-- Embeds the switch in `src/src/hooks/useLivestream.tsx`: note the
default branch is `status = status || "waiting for connection.."`, so a
truthy unrecognized value passes through unchanged. -/
def normalizeStreamStatus_hook (streamStatus : Option String) : String :=
  if streamStatus = some "active" then "receiving data"
  else if streamStatus = some "error" then "lost connection"
  else if truthy streamStatus then jsToStr streamStatus
  else "waiting for connection.."

/-- Embeds the switch in `src/src/index.tsx` (the `/api/livestream/status`
route): the default branch unconditionally yields the waiting label. -/
def normalizeStreamStatus_server (status : Option String) : String :=
  if status = some "active" then "streaming"
  else if status = some "error" then "lost connection"
  else "waiting for connection.."

/-- Invariant of part_010's selection loop: starting from an accumulator
holding `b`, the fold returns an element together with its own timestamp,
and that element is either `b` itself (still a maximum of the remaining
list) or the first strictly-greater element of the remaining list. -/
theorem pickStep_go (l : List YouTubeLiveBroadcast) :
    ∀ b : YouTubeLiveBroadcast,
      ∃ b', l.foldl pickStep (some (b, timeOf b)) = some (b', timeOf b') ∧
        ((b' = b ∧ ∀ c ∈ l, timeOf c ≤ timeOf b) ∨
         (∃ pre suf, l = pre ++ b' :: suf ∧ timeOf b < timeOf b' ∧
            (∀ c ∈ pre, timeOf c < timeOf b') ∧ (∀ c ∈ suf, timeOf c ≤ timeOf b'))) := by
  induction l with
  | nil =>
    intro b
    exact ⟨b, rfl, Or.inl ⟨rfl, by simp⟩⟩
  | cons a l ih =>
    intro b
    by_cases h : timeOf a > timeOf b
    · have hstep : pickStep (some (b, timeOf b)) a = some (a, timeOf a) := by
        simp [pickStep, h]
      obtain ⟨b', hfold, hcase⟩ := ih a
      refine ⟨b', by simpa [List.foldl_cons, hstep] using hfold, Or.inr ?_⟩
      cases hcase with
      | inl hc =>
        refine ⟨[], l, by simp [hc.1], by simpa [hc.1] using h, by simp, ?_⟩
        intro c hc'
        simpa [hc.1] using hc.2 c hc'
      | inr hc =>
        obtain ⟨pre, suf, hl, hlt, hpre, hsuf⟩ := hc
        refine ⟨a :: pre, suf, by simp [hl], lt_trans h hlt, ?_, hsuf⟩
        intro c hc'
        rcases List.mem_cons.mp hc' with hca | hcp
        · simpa [hca] using hlt
        · exact hpre c hcp
    · have hle : timeOf a ≤ timeOf b := le_of_not_lt h
      have hstep : pickStep (some (b, timeOf b)) a = some (b, timeOf b) := by
        simp [pickStep, h]
      obtain ⟨b', hfold, hcase⟩ := ih b
      refine ⟨b', by simpa [List.foldl_cons, hstep] using hfold, ?_⟩
      cases hcase with
      | inl hc =>
        refine Or.inl ⟨hc.1, ?_⟩
        intro c hc'
        rcases List.mem_cons.mp hc' with hca | hcp
        · simpa [hca] using hle
        · exact hc.2 c hcp
      | inr hc =>
        obtain ⟨pre, suf, hl, hlt, hpre, hsuf⟩ := hc
        refine Or.inr ⟨a :: pre, suf, by simp [hl], hlt, ?_, hsuf⟩
        intro c hc'
        rcases List.mem_cons.mp hc' with hca | hcp
        · rw [hca]; exact lt_of_le_of_lt hle hlt
        · exact hpre c hcp

/-- Claim C1: `pickMostRecentBroadcast` (part_010 variant) returns `null`
on an undefined or empty list, and otherwise returns the broadcast with
the latest timestamp, where the timestamp is the first non-empty of
`actualStartTime`, `scheduledStartTime`, `actualEndTime`, `publishedAt`;
on ties the earlier element of the input wins (no strictly earlier
element has an equal-or-larger timestamp). -/
theorem pickMostRecentBroadcast_spec :
    pickMostRecentBroadcast none = none ∧
    pickMostRecentBroadcast (some []) = none ∧
    ∀ l : List YouTubeLiveBroadcast, l ≠ [] →
      ∃ (b : YouTubeLiveBroadcast) (pre suf : List YouTubeLiveBroadcast),
        l = pre ++ b :: suf ∧
        pickMostRecentBroadcast (some l) = some b ∧
        (∀ c ∈ l, timeOf c ≤ timeOf b) ∧
        (∀ c ∈ pre, timeOf c < timeOf b) := by
  refine ⟨rfl, rfl, ?_⟩
  intro l hl
  match l with
  | a :: l =>
    obtain ⟨b', hfold, hcase⟩ := pickStep_go l a
    have hpick : pickMostRecentBroadcast (some (a :: l)) = some b' := by
      have h0 : pickStep none a = some (a, timeOf a) := rfl
      simp [pickMostRecentBroadcast, List.foldl_cons, h0, hfold]
    cases hcase with
    | inl hc =>
      refine ⟨a, [], l, by simp, by rw [hpick, hc.1], ?_, by simp⟩
      intro c hc'
      rcases List.mem_cons.mp hc' with hca | hcp
      · simp [hca]
      · exact hc.2 c hcp
    | inr hc =>
      obtain ⟨pre, suf, hl', hlt, hpre, hsuf⟩ := hc
      refine ⟨b', a :: pre, suf, by simp [hl'], hpick, ?_, ?_⟩
      · intro c hc'
        rcases List.mem_cons.mp hc' with hca | hcp
        · rw [hca]; exact le_of_lt hlt
        · rw [hl'] at hcp
          rcases List.mem_append.mp hcp with hc1 | hc2
          · exact le_of_lt (hpre c hc1)
          · rcases List.mem_cons.mp hc2 with hcb | hcs
            · simp [hcb]
            · exact hsuf c hcs
      · intro c hc'
        rcases List.mem_cons.mp hc' with hca | hcp
        · rw [hca]; exact hlt
        · exact hpre c hcp

/-- Concrete inputs for the C1 witness. -/
def c1wList : List YouTubeLiveBroadcast :=
  [⟨"w1", ⟨some 5, none, none, none, "a"⟩, ⟨"live", "public"⟩⟩,
   ⟨"w2", ⟨some 9, none, none, none, "b"⟩, ⟨"live", "public"⟩⟩]

/-- Claim C1 witness: the characterization instantiated on a concrete
two-element list. -/
theorem pickMostRecentBroadcast_spec_witness :
    c1wList ≠ [] ∧
    ∃ (b : YouTubeLiveBroadcast) (pre suf : List YouTubeLiveBroadcast),
      c1wList = pre ++ b :: suf ∧
      pickMostRecentBroadcast (some c1wList) = some b ∧
      (∀ c ∈ c1wList, timeOf c ≤ timeOf b) ∧
      (∀ c ∈ pre, timeOf c < timeOf b) :=
  ⟨by decide, pickMostRecentBroadcast_spec.2.2 c1wList (by decide)⟩

/-- Claim C1 counterexample: the `src/src/youtube.ts` variant of
`pickMostRecentBroadcast` keys only on `actualStartTime ?? publishedAt`,
so on a list where the four-field rule gives timestamps 1000 and 500 it
returns the element with the SMALLER four-field timestamp (the claim, as
stated for every `pickMostRecentBroadcast`, demands the other one). -/
theorem pickMostRecentBroadcast_yt_cex :
    pickMostRecentBroadcast_yt
        (some [⟨"b1", ⟨none, some 1000, none, some 10, "t1"⟩, ⟨"ready", "private"⟩⟩,
               ⟨"b2", ⟨none, none, none, some 500, "t2"⟩, ⟨"ready", "private"⟩⟩]) =
      some ⟨"b2", ⟨none, none, none, some 500, "t2"⟩, ⟨"ready", "private"⟩⟩ ∧
    timeOf ⟨"b1", ⟨none, some 1000, none, some 10, "t1"⟩, ⟨"ready", "private"⟩⟩ = 1000 ∧
    timeOf ⟨"b2", ⟨none, none, none, some 500, "t2"⟩, ⟨"ready", "private"⟩⟩ = 500 ∧
    (⟨"b2", ⟨none, none, none, some 500, "t2"⟩, ⟨"ready", "private"⟩⟩ : YouTubeLiveBroadcast) ≠
      ⟨"b1", ⟨none, some 1000, none, some 10, "t1"⟩, ⟨"ready", "private"⟩⟩ := by
  decide

/-- Claim C2: `humanizeStatus` is a total function (hence never throws)
mapping `live` to "Live", `created`/`ready`/`testing` to "Starting Soon",
`complete` to "Ended", `canceled` to "Canceled", `revoked` to "Revoked",
and any other string to itself with the neutral gray color. -/
theorem humanizeStatus_spec :
    humanizeStatus "live" = ⟨"Live", "#dc2626"⟩ ∧
    humanizeStatus "created" = ⟨"Starting Soon", "#f59e0b"⟩ ∧
    humanizeStatus "ready" = ⟨"Starting Soon", "#f59e0b"⟩ ∧
    humanizeStatus "testing" = ⟨"Starting Soon", "#f59e0b"⟩ ∧
    humanizeStatus "complete" = ⟨"Ended", "#16a34a"⟩ ∧
    humanizeStatus "canceled" = ⟨"Canceled", "#6b7280"⟩ ∧
    humanizeStatus "revoked" = ⟨"Revoked", "#6b7280"⟩ ∧
    ∀ s : String,
      s ∉ ["live", "created", "ready", "testing", "complete", "canceled", "revoked"] →
        humanizeStatus s = ⟨s, "#6b7280"⟩ := by
  refine ⟨by decide, by decide, by decide, by decide, by decide, by decide, by decide, ?_⟩
  intro s hs
  simp only [List.mem_cons, List.mem_singleton, not_or] at hs
  obtain ⟨h1, h2, h3, h4, h5, h6, h7, -⟩ := hs
  simp [humanizeStatus, h1, h2, h3, h4, h5, h6, h7]

/-- Claim C2 witness: the default branch instantiated at a concrete
unrecognized status string. -/
theorem humanizeStatus_spec_witness :
    "liveStreamOffline" ∉
        ["live", "created", "ready", "testing", "complete", "canceled", "revoked"] ∧
    humanizeStatus "liveStreamOffline" = ⟨"liveStreamOffline", "#6b7280"⟩ :=
  ⟨by decide, humanizeStatus_spec.2.2.2.2.2.2.2 "liveStreamOffline" (by decide)⟩

/-- Claim C3 counterexample: in the `useLivestream` hook variant the
default branch is `status = status || "waiting for connection.."`, so the
unrecognized non-empty value "ready" maps to itself, not to the waiting
label as the claim states for every other value. -/
theorem normalizeStreamStatus_hook_cex :
    normalizeStreamStatus_hook (some "ready") = "ready" ∧
    normalizeStreamStatus_hook (some "ready") ≠ "waiting for connection.." := by
  decide

/-- Claim C3 (amended): both stream-status normalizers are total; the
server variant maps `active` to "streaming", `error` to "lost connection"
and everything else (missing included) to "waiting for connection..";
the hook variant maps `active` to "receiving data", `error` to
"lost connection", a missing or empty value to "waiting for
connection..", and any other non-empty value to itself. -/
theorem normalizeStreamStatus_spec :
    normalizeStreamStatus_hook (some "active") = "receiving data" ∧
    normalizeStreamStatus_hook (some "error") = "lost connection" ∧
    normalizeStreamStatus_hook none = "waiting for connection.." ∧
    normalizeStreamStatus_hook (some "") = "waiting for connection.." ∧
    (∀ v : String, v ≠ "active" → v ≠ "error" → v ≠ "" →
      normalizeStreamStatus_hook (some v) = v) ∧
    normalizeStreamStatus_server (some "active") = "streaming" ∧
    normalizeStreamStatus_server (some "error") = "lost connection" ∧
    normalizeStreamStatus_server none = "waiting for connection.." ∧
    (∀ v : String, v ≠ "active" → v ≠ "error" →
      normalizeStreamStatus_server (some v) = "waiting for connection..") := by
  refine ⟨by decide, by decide, by decide, by decide, ?_, by decide, by decide, by decide, ?_⟩
  · intro v h1 h2 h3
    simp [normalizeStreamStatus_hook, truthy, jsToStr, h1, h2, h3]
  · intro v h1 h2
    simp [normalizeStreamStatus_server, h1, h2]

/-- Claim C3 witness: the quantified branches instantiated at the
concrete unrecognized value "inactive". -/
theorem normalizeStreamStatus_spec_witness :
    ("inactive" ≠ "active" ∧ "inactive" ≠ "error" ∧ "inactive" ≠ "") ∧
    normalizeStreamStatus_hook (some "inactive") = "inactive" ∧
    normalizeStreamStatus_server (some "inactive") = "waiting for connection.." :=
  ⟨by decide,
   normalizeStreamStatus_spec.2.2.2.2.1 "inactive" (by decide) (by decide) (by decide),
   normalizeStreamStatus_spec.2.2.2.2.2.2.2.2 "inactive" (by decide) (by decide)⟩

/-! ## C4: stream-key resolver (`src/unnamed/part_010`)

The `liveStreams` list response is modelled as the nested optional record
structure the code reads through optional chaining; the number of
`liveStreams` insert (create) calls an invocation performs is returned
alongside its result. -/

structure IngestionInfo where
  streamName : Option String
  rtmpsIngestionAddress : Option String
  ingestionAddress : Option String
  deriving DecidableEq, Repr

structure StreamCdn where
  ingestionInfo : Option IngestionInfo
  deriving DecidableEq, Repr

structure StreamContentDetails where
  isReusable : Option Bool
  deriving DecidableEq, Repr

structure YouTubeLiveStream where
  cdn : Option StreamCdn
  contentDetails : Option StreamContentDetails
  deriving DecidableEq, Repr

/-- Optional chain `s.cdn?.ingestionInfo?.streamName`. -/
def streamNameOf (s : YouTubeLiveStream) : Option String :=
  (s.cdn.bind (·.ingestionInfo)).bind (·.streamName)

/-- `s.cdn?.ingestionInfo?.rtmpsIngestionAddress ?? s.cdn?.ingestionInfo?.ingestionAddress`. -/
def ingestOf (s : YouTubeLiveStream) : Option String :=
  ((s.cdn.bind (·.ingestionInfo)).bind (·.rtmpsIngestionAddress)).orElse
    fun _ => (s.cdn.bind (·.ingestionInfo)).bind (·.ingestionAddress)

/-- `s.contentDetails?.isReusable ?? true`. -/
def reusableOf (s : YouTubeLiveStream) : Bool :=
  (s.contentDetails.bind (·.isReusable)).getD true

/-- The selection loop shared verbatim by `getYouTubeStreamKey` and
`peekYouTubeStreamKey`: first entry with a truthy stream key whose
`isReusable` flag is true or absent. -/
def findReusableStream : List YouTubeLiveStream → Option (String × Option String)
  | [] => none
  | s :: rest =>
    if truthy (streamNameOf s) ∧ reusableOf s = true then
      some (jsToStr (streamNameOf s), ingestOf s)
    else findReusableStream rest

structure StreamKeyResult where
  streamKey : Option String
  ingestUrl : Option String
  deriving DecidableEq, Repr

/-- Embeds `getYouTubeStreamKey`: prefer an existing reusable stream,
otherwise issue exactly one `liveStreams` insert whose fresh key is
`freshKey`. The first component counts insert calls. -/
def getYouTubeStreamKey (items : Option (List YouTubeLiveStream)) (freshKey : String) :
    Nat × StreamKeyResult :=
  match findReusableStream (items.getD []) with
  | some (k, ingest) => (0, ⟨some k, ingest⟩)
  | none => (1, ⟨some freshKey, none⟩)

/-- Embeds `peekYouTubeStreamKey`: same loop, but an empty result and no
insert when nothing reusable exists. -/
def peekYouTubeStreamKey (items : Option (List YouTubeLiveStream)) :
    Nat × StreamKeyResult :=
  match findReusableStream (items.getD []) with
  | some (k, ingest) => (0, ⟨some k, ingest⟩)
  | none => (0, ⟨none, none⟩)

/-- A listed livestream that counts as reusable for the claim: a
non-empty stream key and `contentDetails.isReusable` true or absent. -/
def reusableEntry (s : YouTubeLiveStream) : Prop :=
  (∃ k, streamNameOf s = some k ∧ k ≠ "") ∧ reusableOf s = true

theorem findReusableStream_eq_none (l : List YouTubeLiveStream) :
    findReusableStream l = none ↔ ∀ s ∈ l, ¬ reusableEntry s := by
  induction l with
  | nil => simp [findReusableStream]
  | cons s rest ih =>
    by_cases h : truthy (streamNameOf s) ∧ reusableOf s = true
    · have hs : reusableEntry s := ⟨(truthy_iff _).mp h.1, h.2⟩
      simp only [findReusableStream, if_pos h]
      constructor
      · intro hcontra
        exact absurd hcontra (by simp)
      · intro hall
        exact absurd hs (hall s (by simp))
    · simp only [findReusableStream, if_neg h]
      rw [ih]
      constructor
      · intro hall c hc
        rcases List.mem_cons.mp hc with hcs | hcr
        · intro hre
          rw [hcs] at hre
          exact h ⟨(truthy_iff _).mpr hre.1, hre.2⟩
        · exact hall c hcr
      · intro hall c hc
        exact hall c (List.mem_cons_of_mem s hc)

/-- Claim C4: `peekYouTubeStreamKey` never issues an insert and returns
an empty result when no reusable stream is listed; `getYouTubeStreamKey`
issues at most one insert per invocation, and issues it exactly when no
listed entry has a non-empty stream key with `isReusable` true or
absent. -/
theorem streamKey_frame_effects (items : Option (List YouTubeLiveStream))
    (freshKey : String) :
    (peekYouTubeStreamKey items).1 = 0 ∧
    ((∀ s ∈ items.getD [], ¬ reusableEntry s) →
      (peekYouTubeStreamKey items).2 = ⟨none, none⟩) ∧
    (getYouTubeStreamKey items freshKey).1 ≤ 1 ∧
    ((getYouTubeStreamKey items freshKey).1 = 1 ↔
      ∀ s ∈ items.getD [], ¬ reusableEntry s) := by
  refine ⟨?_, ?_, ?_, ?_⟩
  · unfold peekYouTubeStreamKey
    cases findReusableStream (items.getD []) with
    | none => rfl
    | some p => rfl
  · intro hall
    unfold peekYouTubeStreamKey
    rw [(findReusableStream_eq_none _).mpr hall]
  · unfold getYouTubeStreamKey
    cases findReusableStream (items.getD []) with
    | none => simp
    | some p => simp
  · unfold getYouTubeStreamKey
    rw [← findReusableStream_eq_none]
    cases findReusableStream (items.getD []) with
    | none => simp
    | some p => simp

/-- A concrete non-reusable listed stream for the C4 witness:
reusability explicitly false. -/
def c4wStream : YouTubeLiveStream :=
  ⟨some ⟨some ⟨some "key-a", none, none⟩⟩, some ⟨some false⟩⟩

/-- The concrete `liveStreams` list response for the C4 witness. -/
def c4wItems : Option (List YouTubeLiveStream) := some [c4wStream]

/-- Claim C4 witness: instantiated on a list holding one non-reusable
stream, so the peek result is empty, the peek issues no insert, and the
get-or-create issues exactly one. -/
theorem streamKey_frame_effects_witness :
    (∀ s ∈ c4wItems.getD [], ¬ reusableEntry s) ∧
    (peekYouTubeStreamKey c4wItems).1 = 0 ∧
    (peekYouTubeStreamKey c4wItems).2 = ⟨none, none⟩ ∧
    (getYouTubeStreamKey c4wItems "fresh").1 = 1 := by
  have hall : ∀ s ∈ c4wItems.getD [], ¬ reusableEntry s := by
    intro s hs
    simp only [c4wItems, Option.getD_some, List.mem_singleton] at hs
    intro hre
    rw [hs] at hre
    simpa [c4wStream, reusableOf] using hre.2
  have h := streamKey_frame_effects c4wItems "fresh"
  exact ⟨hall, h.1, h.2.1 hall, (h.2.2.2).mpr hall⟩

/-! ## C5/C6/C7: start-stream and end-stream mutations

The react-query mutation bodies are embedded as pure functions of their
read inputs. The `useBroadcast` / `useLivestream` hook data and the
mutation options become records of optional strings; the provider's
responses to the create and transition calls are supplied by a
`StartEnv` oracle. The mutating calls issued (create / bind /
transition) are recorded in order; a thrown `Error` becomes the `err`
constructor carrying the calls issued before the throw. -/

inductive StreamCall where
  | create (title description : Option String)
  | bind (broadcastId streamId : String)
  | transition (broadcastId target : String)
  deriving DecidableEq, Repr

structure HookBroadcast where
  id : Option String
  status : Option String
  title : Option String
  description : Option String
  boundStreamId : Option String
  deriving DecidableEq, Repr

structure HookLivestream where
  id : Option String
  deriving DecidableEq, Repr

structure StartStreamOptions where
  broadcastId : Option String
  streamId : Option String
  deriving DecidableEq, Repr

/-- Provider-side responses: the access token, and what the create and
transition calls come back with. -/
structure StartEnv where
  accessToken : Option String
  createdId : String
  createdStatus : Option String
  transitionStatus : Option String
  deriving DecidableEq, Repr

structure StartStreamResult where
  broadcastId : String
  streamId : String
  status : Option String
  deriving DecidableEq, Repr

inductive StartOutcome where
  | err (calls : List StreamCall) (msg : String)
  | ok (calls : List StreamCall) (result : StartStreamResult)
  deriving DecidableEq, Repr

/-- The calls a start-stream invocation issued, whether it returned or
threw. -/
def StartOutcome.callsOf : StartOutcome → List StreamCall
  | .err calls _ => calls
  | .ok calls _ => calls

def targetableStatuses : List String := ["ready", "testing", "created"]

/-- The create condition of step 2 in `useStartStream.tsx`:
`!workingBroadcastId || workingBroadcastStatus === "complete"`. -/
def doCreate_tsx (broadcast : HookBroadcast) (opts : StartStreamOptions) : Bool :=
  ¬ truthy (jsOr opts.broadcastId broadcast.id) ∨ broadcast.status = some "complete"

/-- The lifecycle status of the working broadcast at the transition
decision of `useStartStream.tsx`: the created broadcast's status when
step 2 created one, the current broadcast's status otherwise. -/
def workingStatus_tsx (env : StartEnv) (broadcast : HookBroadcast)
    (opts : StartStreamOptions) : Option String :=
  if doCreate_tsx broadcast opts then env.createdStatus else broadcast.status

/-- The create condition of `src/unnamed/part_006`:
no working id, or a truthy status outside ready/created/testing. -/
def doCreate_p006 (broadcast : HookBroadcast) (opts : StartStreamOptions) : Bool :=
  ¬ truthy (jsOr opts.broadcastId broadcast.id) ∨
    (truthy broadcast.status ∧
      jsToStr broadcast.status ∉ (["ready", "created", "testing"] : List String))

/-- Embeds the `useStartStream` mutation body of
`src/src/hooks/useStartStream.tsx`: early exit when already live, create
when the broadcast is missing or complete, resolve a stream id, bind when
unbound, and transition to live only from a targetable status. The
fixed stabilization delay before the transition has no observable effect
in this model and is not represented. -/
def startStream_tsx (env : StartEnv) (broadcast : HookBroadcast)
    (livestream : HookLivestream) (opts : StartStreamOptions) : StartOutcome :=
  if ¬ truthy env.accessToken then .err [] "Missing access token"
  else
    let workingBroadcastId := jsOr opts.broadcastId broadcast.id
    let workingBroadcastStatus := broadcast.status
    if workingBroadcastStatus = some "live" ∧ truthy workingBroadcastId then
      .ok [] ⟨jsToStr workingBroadcastId,
              jsToStr (jsOr (jsOr opts.streamId broadcast.boundStreamId) livestream.id),
              workingBroadcastStatus⟩
    else
      let doCreate := doCreate_tsx broadcast opts
      let calls₁ : List StreamCall :=
        if doCreate then [.create broadcast.title broadcast.description] else []
      let workingBroadcastId :=
        if doCreate then some env.createdId else workingBroadcastId
      let workingBroadcastStatus :=
        if doCreate then env.createdStatus else workingBroadcastStatus
      if ¬ truthy workingBroadcastId then
        .err calls₁ "No broadcast available after creation attempt"
      else
        let streamId := jsOr (jsOr opts.streamId broadcast.boundStreamId) livestream.id
        if ¬ truthy streamId then
          .err calls₁ "No livestream stream id available to bind"
        else
          let calls₂ := calls₁ ++
            (if ¬ truthy broadcast.boundStreamId then
               [.bind (jsToStr workingBroadcastId) (jsToStr streamId)] else [])
          if jsToStr workingBroadcastStatus ∈ targetableStatuses then
            .ok (calls₂ ++ [.transition (jsToStr workingBroadcastId) "live"])
               ⟨jsToStr workingBroadcastId, jsToStr streamId, env.transitionStatus⟩
          else
            .ok calls₂
               ⟨jsToStr workingBroadcastId, jsToStr streamId, workingBroadcastStatus⟩

/-- Embeds the `useStartStream` mutation body of `src/unnamed/part_006`:
no early exit for a live broadcast — it creates a new broadcast whenever
the current status is truthy and not in ready/created/testing, binds when
unbound, and then transitions to live unconditionally. -/
def startStream_p006 (env : StartEnv) (broadcast : HookBroadcast)
    (livestream : HookLivestream) (opts : StartStreamOptions) : StartOutcome :=
  if ¬ truthy env.accessToken then .err [] "Missing access token"
  else
    let workingBroadcastId := jsOr opts.broadcastId broadcast.id
    let doCreate := doCreate_p006 broadcast opts
    let calls₁ : List StreamCall :=
      if doCreate then [.create broadcast.title broadcast.description] else []
    let workingBroadcastId :=
      if doCreate then some env.createdId else workingBroadcastId
    if ¬ truthy workingBroadcastId then .err calls₁ "No broadcast available"
    else
      let streamId := jsOr (jsOr opts.streamId broadcast.boundStreamId) livestream.id
      if ¬ truthy streamId then
        .err calls₁ "No livestream stream id available to bind"
      else
        let calls₂ := calls₁ ++
          (if ¬ truthy broadcast.boundStreamId then
             [.bind (jsToStr workingBroadcastId) (jsToStr streamId)] else [])
        .ok (calls₂ ++ [.transition (jsToStr workingBroadcastId) "live"])
           ⟨jsToStr workingBroadcastId, jsToStr streamId, env.transitionStatus⟩

inductive EndOutcome where
  | err (calls : List StreamCall) (msg : String)
  | ok (calls : List StreamCall) (status : Option String)
  deriving DecidableEq, Repr

/-- Embeds the `useEndStream` mutation body of `src/unnamed/part_005`:
guard on the access token, a known broadcast id and a currently-live
status, then issue a single transition-to-complete call. -/
def endStreamMutation (accessToken broadcastId broadcastStatus : Option String)
    (transitionStatus : Option String) : EndOutcome :=
  if ¬ truthy accessToken then .err [] "Missing access token"
  else if ¬ truthy broadcastId then .err [] "No active broadcast id"
  else if broadcastStatus ≠ some "live" then .err [] "Broadcast not live – cannot end"
  else .ok [.transition (jsToStr broadcastId) "complete"] transitionStatus

/-- Claim C5 (amended): in the `useStartStream.tsx` variant, when the
current broadcast is already live and its id is known (and no overriding
id is passed in the options), the mutation issues zero create/bind/
transition calls and returns the current id and status unchanged. -/
theorem startStream_tsx_live_noop (env : StartEnv) (broadcast : HookBroadcast)
    (livestream : HookLivestream) (opts : StartStreamOptions)
    (htok : truthy env.accessToken = true)
    (hlive : broadcast.status = some "live")
    (hopts : opts.broadcastId = none)
    (hid : truthy broadcast.id = true) :
    startStream_tsx env broadcast livestream opts =
      .ok [] ⟨jsToStr broadcast.id,
              jsToStr (jsOr (jsOr opts.streamId broadcast.boundStreamId) livestream.id),
              broadcast.status⟩ := by
  have hbid : jsOr none broadcast.id = broadcast.id := by
    simp [jsOr, truthy]
  simp [startStream_tsx, htok, hlive, hopts, hbid, hid]

/-- Claim C5 witness: the no-op instantiated on a concrete live state. -/
theorem startStream_tsx_live_noop_witness :
    (truthy (some "tk") = true ∧
      (⟨some "lb", some "live", some "T", none, some "sA"⟩ : HookBroadcast).status =
        some "live" ∧
      truthy (some "lb") = true) ∧
    startStream_tsx ⟨some "tk", "x", some "created", some "live"⟩
        ⟨some "lb", some "live", some "T", none, some "sA"⟩ ⟨some "lsA"⟩ ⟨none, none⟩ =
      .ok [] ⟨"lb", "sA", some "live"⟩ :=
  ⟨⟨by decide, by decide, by decide⟩,
   startStream_tsx_live_noop ⟨some "tk", "x", some "created", some "live"⟩
     ⟨some "lb", some "live", some "T", none, some "sA"⟩ ⟨some "lsA"⟩ ⟨none, none⟩
     (by decide) (by decide) rfl (by decide)⟩

/-- Claim C5 counterexample: the `part_006` variant has no early exit for
a live broadcast — on a live state with a known id it issues a create
call and a transition call (two provider mutations, not zero). -/
theorem startStream_p006_live_cex :
    startStream_p006 ⟨some "tok", "newB", some "created", some "live"⟩
        ⟨some "b1", some "live", some "My show", none, some "s1"⟩ ⟨some "ls1"⟩
        ⟨none, none⟩ =
      .ok [.create (some "My show") none, .transition "newB" "live"]
        ⟨"newB", "s1", some "live"⟩ ∧
    ([StreamCall.create (some "My show") none, .transition "newB" "live"] ≠
      ([] : List StreamCall)) := by
  constructor
  · decide
  · decide

/-- Claim C6: the `useEndStream` mutation of part_005 fails without
issuing any provider call whenever the current status is not live (with
the dedicated precondition message when token and id are present), and
when the status is live (with token and id present) it issues exactly
one transition-to-complete call. -/
theorem endStream_spec (tok bid st ts : Option String) :
    (st ≠ some "live" → ∃ msg, endStreamMutation tok bid st ts = .err [] msg) ∧
    (truthy tok = true → truthy bid = true → st ≠ some "live" →
      endStreamMutation tok bid st ts = .err [] "Broadcast not live – cannot end") ∧
    (truthy tok = true → truthy bid = true → st = some "live" →
      endStreamMutation tok bid st ts = .ok [.transition (jsToStr bid) "complete"] ts) := by
  refine ⟨?_, ?_, ?_⟩
  · intro hst
    unfold endStreamMutation
    by_cases h1 : truthy tok = true
    · by_cases h2 : truthy bid = true
      · exact ⟨"Broadcast not live – cannot end", by simp [h1, h2, hst]⟩
      · exact ⟨"No active broadcast id", by simp [h1, h2]⟩
    · exact ⟨"Missing access token", by simp [h1]⟩
  · intro h1 h2 hst
    simp [endStreamMutation, h1, h2, hst]
  · intro h1 h2 hst
    simp [endStreamMutation, h1, h2, hst]

/-- Claim C6 witness: a non-live state fails with the precondition error
and an empty call list; a live state issues the single complete
transition. -/
theorem endStream_spec_witness :
    ((some "ready" : Option String) ≠ some "live" ∧
      endStreamMutation (some "tk2") (some "b9") (some "ready") (some "complete") =
        .err [] "Broadcast not live – cannot end") ∧
    endStreamMutation (some "tk2") (some "b9") (some "live") (some "complete") =
      .ok [.transition "b9" "complete"] (some "complete") :=
  ⟨⟨by decide,
    (endStream_spec (some "tk2") (some "b9") (some "ready") (some "complete")).2.1
      (by decide) (by decide) (by decide)⟩,
   (endStream_spec (some "tk2") (some "b9") (some "live") (some "complete")).2.2
     (by decide) (by decide) rfl⟩

/-- Claim C7 (amended): whenever the `useStartStream.tsx` mutation
returns successfully, it issued a transition call exactly when the
working broadcast's lifecycle status (after any step-2 creation) was one
of ready/testing/created, and for any other working status the returned
status is that status unchanged. -/
theorem startStream_tsx_transition_guard (env : StartEnv) (broadcast : HookBroadcast)
    (livestream : HookLivestream) (opts : StartStreamOptions)
    (calls : List StreamCall) (res : StartStreamResult)
    (h : startStream_tsx env broadcast livestream opts = .ok calls res) :
    ((∃ bid target, StreamCall.transition bid target ∈ calls) ↔
      jsToStr (workingStatus_tsx env broadcast opts) ∈ targetableStatuses) ∧
    (jsToStr (workingStatus_tsx env broadcast opts) ∉ targetableStatuses →
      res.status = workingStatus_tsx env broadcast opts) := by
  by_cases h1 : truthy env.accessToken = true
  · by_cases h2 : broadcast.status = some "live" ∧
        truthy (jsOr opts.broadcastId broadcast.id) = true
    · -- early live exit: no calls, status returned unchanged
      have hdc : doCreate_tsx broadcast opts = false := by
        simp [doCreate_tsx, h2.1, h2.2]
      have hws : workingStatus_tsx env broadcast opts = broadcast.status := by
        simp [workingStatus_tsx, hdc]
      simp only [startStream_tsx, h1, h2] at h
      injection h with hcalls hres
      constructor
      · rw [← hcalls, hws, h2.1]
        apply iff_of_false
        · rintro ⟨bid, target, hmem⟩
          simp at hmem
        · decide
      · intro _
        rw [hws, h2.1, ← hres]
    · -- main path
      by_cases hwid : truthy (if doCreate_tsx broadcast opts then some env.createdId
          else jsOr opts.broadcastId broadcast.id) = true
      · by_cases hsid : truthy (jsOr (jsOr opts.streamId broadcast.boundStreamId)
            livestream.id) = true
        · by_cases htg : jsToStr (workingStatus_tsx env broadcast opts) ∈
              targetableStatuses
          · -- transition issued
            have heq : startStream_tsx env broadcast livestream opts =
                .ok (((if doCreate_tsx broadcast opts then
                        [StreamCall.create broadcast.title broadcast.description]
                      else []) ++
                     (if ¬ truthy broadcast.boundStreamId then
                        [StreamCall.bind
                          (jsToStr (if doCreate_tsx broadcast opts then some env.createdId
                            else jsOr opts.broadcastId broadcast.id))
                          (jsToStr (jsOr (jsOr opts.streamId broadcast.boundStreamId)
                            livestream.id))] else [])) ++
                     [StreamCall.transition
                       (jsToStr (if doCreate_tsx broadcast opts then some env.createdId
                         else jsOr opts.broadcastId broadcast.id)) "live"])
                   ⟨jsToStr (if doCreate_tsx broadcast opts then some env.createdId
                       else jsOr opts.broadcastId broadcast.id),
                    jsToStr (jsOr (jsOr opts.streamId broadcast.boundStreamId)
                      livestream.id),
                    env.transitionStatus⟩ := by
              simp only [startStream_tsx, workingStatus_tsx] at htg ⊢
              simp [h1, h2, hwid, hsid, htg]
            rw [heq] at h
            injection h with hcalls hres
            constructor
            · rw [← hcalls]
              refine iff_of_true
                ⟨jsToStr (if doCreate_tsx broadcast opts = true then some env.createdId
                   else jsOr opts.broadcastId broadcast.id), "live", ?_⟩ htg
              simp
            · intro hcon
              exact absurd htg hcon
          · -- no transition: returned status is the working status
            have heq : startStream_tsx env broadcast livestream opts =
                .ok ((if doCreate_tsx broadcast opts then
                        [StreamCall.create broadcast.title broadcast.description]
                      else []) ++
                     (if ¬ truthy broadcast.boundStreamId then
                        [StreamCall.bind
                          (jsToStr (if doCreate_tsx broadcast opts then some env.createdId
                            else jsOr opts.broadcastId broadcast.id))
                          (jsToStr (jsOr (jsOr opts.streamId broadcast.boundStreamId)
                            livestream.id))] else []))
                   ⟨jsToStr (if doCreate_tsx broadcast opts then some env.createdId
                       else jsOr opts.broadcastId broadcast.id),
                    jsToStr (jsOr (jsOr opts.streamId broadcast.boundStreamId)
                      livestream.id),
                    workingStatus_tsx env broadcast opts⟩ := by
              simp only [startStream_tsx, workingStatus_tsx] at htg ⊢
              simp [h1, h2, hwid, hsid, htg]
            rw [heq] at h
            injection h with hcalls hres
            constructor
            · rw [← hcalls]
              apply iff_of_false
              · rintro ⟨bid, target, hmem⟩
                rcases List.mem_append.mp hmem with hm | hm
                · by_cases hdc : doCreate_tsx broadcast opts = true <;> simp [hdc] at hm
                · by_cases hbs : truthy broadcast.boundStreamId = true <;> simp [hbs] at hm
              · exact htg
            · intro _
              rw [← hres]
        · -- throws: no stream id
          exfalso
          simp only [startStream_tsx] at h
          simp [h1, h2, hwid, hsid] at h
      · -- throws: no broadcast id after creation
        exfalso
        simp only [startStream_tsx] at h
        simp [h1, h2, hwid] at h
  · -- throws: missing token
    exfalso
    simp only [startStream_tsx] at h
    simp [h1] at h

/-- Concrete inputs for the C7 witness: a ready, already-bound broadcast,
so the successful run ends in a single transition call. -/
def c7wEnv : StartEnv := ⟨some "t", "cid", some "created", some "live"⟩

def c7wBroadcast : HookBroadcast := ⟨some "rb", some "ready", none, none, some "bs"⟩

def c7wLivestream : HookLivestream := ⟨none⟩

def c7wOpts : StartStreamOptions := ⟨none, none⟩

/-- Claim C7 witness: the transition guard instantiated on a concrete
successful run from a ready status. -/
theorem startStream_tsx_transition_guard_witness :
    startStream_tsx c7wEnv c7wBroadcast c7wLivestream c7wOpts =
      .ok [.transition "rb" "live"] ⟨"rb", "bs", some "live"⟩ ∧
    (((∃ bid target, StreamCall.transition bid target ∈
          [StreamCall.transition "rb" "live"]) ↔
        jsToStr (workingStatus_tsx c7wEnv c7wBroadcast c7wOpts) ∈ targetableStatuses) ∧
      (jsToStr (workingStatus_tsx c7wEnv c7wBroadcast c7wOpts) ∉ targetableStatuses →
        (⟨"rb", "bs", some "live"⟩ : StartStreamResult).status =
          workingStatus_tsx c7wEnv c7wBroadcast c7wOpts)) :=
  ⟨by decide,
   startStream_tsx_transition_guard c7wEnv c7wBroadcast c7wLivestream c7wOpts
     [.transition "rb" "live"] ⟨"rb", "bs", some "live"⟩ (by decide)⟩

/-- Claim C7 counterexample: the `part_006` variant transitions
unconditionally — on a broadcast whose lifecycle status is missing
(hence not one of ready/testing/created) it still issues the transition
call and returns the transition's status instead of the unchanged one. -/
theorem startStream_p006_transition_cex :
    startStream_p006 ⟨some "tok", "nX", some "created", some "live"⟩
        ⟨some "b2", none, none, none, none⟩ ⟨some "ls2"⟩ ⟨none, none⟩ =
      .ok [.bind "b2" "ls2", .transition "b2" "live"] ⟨"b2", "ls2", some "live"⟩ ∧
    (⟨some "b2", none, none, none, none⟩ : HookBroadcast).status = none ∧
    jsToStr none ∉ targetableStatuses ∧
    StreamCall.transition "b2" "live" ∈
      [StreamCall.bind "b2" "ls2", StreamCall.transition "b2" "live"] := by
  refine ⟨by decide, rfl, by decide, by decide⟩

/-! ## C8/C9: broadcast upsert — create and update payloads

The bodies of the mutating calls are modelled as records; `now` is the
millisecond clock at the time of the call. -/

/-- Body of a part_010 `liveBroadcasts` insert (POST). -/
structure InsertBody where
  scheduledStartTime : Int
  title : Option String
  description : Option String
  privacyStatus : String
  deriving DecidableEq, Repr

/-- Snippet of a `liveBroadcasts` update (PUT): each field present only
when the code put it into `snippetUpdates`. -/
structure SnippetUpdate where
  scheduledStartTime : Option Int
  title : Option String
  description : Option String
  deriving DecidableEq, Repr

/-- Embeds `insertBroadcast` of part_010: schedule five minutes out,
include title/description only when truthy, create private. -/
def insertBroadcastBody (now : Int) (title description : Option String) : InsertBody :=
  { scheduledStartTime := now + 5 * 60 * 1000
    title := if truthy title then title else none
    description := if truthy description then description else none
    privacyStatus := "private" }

/-- Embeds `updateTitleDescription` of part_010: no PUT at all when
neither field is truthy; otherwise a PUT whose snippet ALWAYS carries a
`scheduledStartTime` five minutes out, plus every supplied field. -/
def updateTitleDescription_p010 (now : Int) (title description : Option String) :
    Option SnippetUpdate :=
  if ¬ truthy title ∧ ¬ truthy description then none
  else some { scheduledStartTime := some (now + 5 * 60 * 1000)
              title := title
              description := description }

/-- Embeds `updateTitleDescription` of `src/src/youtube.ts`: no PUT when
neither field is truthy; otherwise a PUT whose snippet carries only the
supplied fields and NEVER a `scheduledStartTime`. -/
def updateTitleDescription_yt (title description : Option String) :
    Option SnippetUpdate :=
  if ¬ truthy title ∧ ¬ truthy description then none
  else some { scheduledStartTime := none
              title := title
              description := description }

/-- The mutating calls of part_010's
`upsertMostRecentActiveBroadcastTitleDescription`. -/
inductive UpsertCall where
  | insertB (body : InsertBody)
  | updateB (broadcastId : String) (snippet : SnippetUpdate)
  deriving DecidableEq, Repr

/-- `isActiveStatus` of part_010. -/
def isActiveStatus (s : String) : Bool :=
  s = "live" ∨ s = "testing" ∨ s = "ready" ∨ s = "created"

/-- Embeds the mutating behaviour of
`upsertMostRecentActiveBroadcastTitleDescription` (part_010): filter the
listed broadcasts to active statuses, pick the most recent, then either
update it or insert a brand-new private broadcast. The trailing re-fetch
of the updated broadcast is a read and is not a recorded call. -/
def upsert_p010 (now : Int) (items : Option (List YouTubeLiveBroadcast))
    (title description : Option String) : List UpsertCall :=
  let active := (items.getD []).filter fun b => isActiveStatus b.status.lifeCycleStatus
  match pickMostRecentBroadcast (some active) with
  | some picked =>
    match updateTitleDescription_p010 now title description with
    | some snippet => [.updateB picked.id snippet]
    | none => []
  | none => [.insertB (insertBroadcastBody now title description)]

/-- Body of the `createBroadcast` POST in
`src/src/services/youtube/broadcast.ts`. -/
structure SvcCreateBody where
  title : String
  description : Option String
  scheduledStartTime : Int
  deriving DecidableEq, Repr

/-- Embeds `createBroadcast` of `src/src/services/youtube/broadcast.ts`:
title required, schedule five minutes out. -/
def createBroadcast_svc (now : Int) (title : String) (description : Option String) :
    SvcCreateBody :=
  ⟨title, description, now + 5 * 60 * 1000⟩

/-- Candidate broadcast as read back by `fromID` in broadcast.ts. -/
structure CandSnippet where
  scheduledStartTime : Option Int
  deriving DecidableEq, Repr

structure Cand where
  id : String
  snippet : CandSnippet
  deriving DecidableEq, Repr

inductive SvcAction where
  | create (body : SvcCreateBody)
  | put (snippet : SnippetUpdate)
  deriving DecidableEq, Repr

/-- Embeds `updateBroadcastTitleDescription` of broadcast.ts: create when
no id or no fetched candidate; otherwise a partial PUT with only the
supplied fields, plus a five-minute-out `scheduledStartTime` exactly when
the candidate had one. -/
def updateBroadcastTitleDescription_svc (now : Int) (id : Option String)
    (fetched : Option Cand) (title description : Option String) : SvcAction :=
  match (if truthy id then fetched else none) with
  | none => .create (createBroadcast_svc now (title.getD "my livestream") description)
  | some cand =>
    .put { scheduledStartTime :=
             if truthy id ∧ cand.snippet.scheduledStartTime.isSome then
               some (now + 5 * 60 * 1000)
             else none
           title := title
           description := description }

/-- Claim C8: with an empty broadcasts list and a truthy title, the
part_010 upsert issues exactly one insert, carrying that title, with a
scheduled start between 30 and 300 seconds after now; the broadcast.ts
`createBroadcast` likewise carries the given title with a scheduled start
in the same window. -/
theorem upsert_empty_creates_one (now : Int) (title description : Option String)
    (h : truthy title = true) (t : String) (d : Option String) :
    (upsert_p010 now (some []) title description =
      [.insertB { scheduledStartTime := now + 5 * 60 * 1000
                  title := title
                  description := if truthy description then description else none
                  privacyStatus := "private" }] ∧
      now + 30 * 1000 ≤ now + 5 * 60 * 1000 ∧
      now + 5 * 60 * 1000 ≤ now + 300 * 1000) ∧
    ((createBroadcast_svc now t d).title = t ∧
      now + 30 * 1000 ≤ (createBroadcast_svc now t d).scheduledStartTime ∧
      (createBroadcast_svc now t d).scheduledStartTime ≤ now + 300 * 1000) := by
  refine ⟨⟨?_, by omega, by omega⟩, rfl, ?_, ?_⟩
  · simp [upsert_p010, pickMostRecentBroadcast, insertBroadcastBody, h]
  · simp only [createBroadcast_svc]
    omega
  · simp only [createBroadcast_svc]
    omega

/-- Claim C8 witness: instantiated at clock 0 with title "Launch". -/
theorem upsert_empty_creates_one_witness :
    truthy (some "Launch") = true ∧
    upsert_p010 0 (some []) (some "Launch") none =
      [.insertB { scheduledStartTime := 300000
                  title := some "Launch"
                  description := none
                  privacyStatus := "private" }] :=
  ⟨by decide,
   (upsert_empty_creates_one 0 (some "Launch") none (by decide) "Launch" none).1.1⟩

/-- Claim C9 (amended): in the broadcast.ts variant the update path is a
partial PUT whose snippet holds exactly the supplied title/description,
with a scheduled start pushed five minutes past now if and only if the
fetched candidate had one. -/
theorem updateBroadcast_svc_partial_put (now : Int) (id : String) (hid : id ≠ "")
    (cand : Cand) (title description : Option String) :
    ∃ snip, updateBroadcastTitleDescription_svc now (some id) (some cand)
        title description = .put snip ∧
      snip.title = title ∧
      snip.description = description ∧
      (snip.scheduledStartTime.isSome ↔ cand.snippet.scheduledStartTime.isSome) ∧
      (cand.snippet.scheduledStartTime.isSome →
        snip.scheduledStartTime = some (now + 5 * 60 * 1000)) := by
  have htr : truthy (some id) = true := by
    simp [truthy, hid]
  refine ⟨{ scheduledStartTime :=
              if truthy (some id) ∧ cand.snippet.scheduledStartTime.isSome then
                some (now + 5 * 60 * 1000)
              else none
            title := title
            description := description }, ?_, rfl, rfl, ?_, ?_⟩
  · simp [updateBroadcastTitleDescription_svc, htr]
  · by_cases hs : cand.snippet.scheduledStartTime.isSome = true <;> simp [htr, hs]
  · intro hs
    simp [htr, hs]

/-- Claim C9 witness: the partial PUT instantiated on a candidate that
has a scheduled start time. -/
theorem updateBroadcast_svc_partial_put_witness :
    ("bid7" : String) ≠ "" ∧
    ∃ snip, updateBroadcastTitleDescription_svc 1000 (some "bid7")
        (some ⟨"bid7", ⟨some 99⟩⟩) (some "T") none = .put snip ∧
      snip.title = some "T" ∧
      snip.description = none ∧
      (snip.scheduledStartTime.isSome ↔
        (⟨"bid7", ⟨some 99⟩⟩ : Cand).snippet.scheduledStartTime.isSome) ∧
      ((⟨"bid7", ⟨some 99⟩⟩ : Cand).snippet.scheduledStartTime.isSome →
        snip.scheduledStartTime = some (1000 + 5 * 60 * 1000)) :=
  ⟨by decide,
   updateBroadcast_svc_partial_put 1000 "bid7" (by decide) ⟨"bid7", ⟨some 99⟩⟩
     (some "T") none⟩

/-- Claim C9 counterexample: the part_010 update path sends a
`scheduledStartTime` unconditionally — here the picked candidate has no
scheduled start time, yet the PUT snippet carries one — while the
youtube.ts variant never sends one even though its caller may have
fetched a candidate that had one. -/
theorem update_scheduledStart_cex :
    upsert_p010 0
        (some [⟨"c1", ⟨none, none, none, some 100, "old"⟩, ⟨"ready", "private"⟩⟩])
        (some "T") none =
      [.updateB "c1" { scheduledStartTime := some 300000
                       title := some "T"
                       description := none }] ∧
    (⟨"c1", ⟨none, none, none, some 100, "old"⟩,
      ⟨"ready", "private"⟩⟩ : YouTubeLiveBroadcast).snippet.scheduledStartTime = none ∧
    updateTitleDescription_yt (some "T") none =
      some { scheduledStartTime := none, title := some "T", description := none } := by
  refine ⟨by decide, rfl, by decide⟩

/-! ## C10: OAuth callback handler (`src/unnamed/part_008`)

The query parameters and the parsed `oauth_state` cookie value are
`Option String` (`none` = absent); whether the token endpoint would
answer successfully is the `exchangeOk` oracle. The outcome records the
HTTP status and whether a token exchange request and a token-file write
happened. -/

structure CallbackOutcome where
  status : Nat
  exchangeAttempted : Bool
  tokenSaved : Bool
  deriving DecidableEq, Repr

/-- Embeds the `/api/oauth/google/callback` route of part_008:
400 on a falsy `code`; 400 on a falsy `state` or a cookie mismatch;
otherwise exchange the code, 500 when the exchange fails, else persist
the token and redirect (302). -/
def oauthGoogleCallback (code state cookieState : Option String)
    (exchangeOk : Bool) : CallbackOutcome :=
  if ¬ truthy code then ⟨400, false, false⟩
  else if ¬ truthy state ∨ cookieState ≠ state then ⟨400, false, false⟩
  else if exchangeOk then ⟨302, true, true⟩
  else ⟨500, true, false⟩

/-- Claim C10: a missing `code`, a missing `state`, or a `state`
differing from the `oauth_state` cookie yields a 400 with no token
exchange and no persistence; an exchange is attempted only when `code`
is present (non-empty) and `state` matches the cookie; tokens are saved
only after an attempted exchange. -/
theorem oauthCallback_guard (code state cookieState : Option String)
    (exchangeOk : Bool) :
    ((code = none ∨ state = none ∨ cookieState ≠ state) →
      oauthGoogleCallback code state cookieState exchangeOk = ⟨400, false, false⟩) ∧
    ((oauthGoogleCallback code state cookieState exchangeOk).exchangeAttempted = true →
      truthy code = true ∧ truthy state = true ∧ cookieState = state) ∧
    ((oauthGoogleCallback code state cookieState exchangeOk).tokenSaved = true →
      (oauthGoogleCallback code state cookieState exchangeOk).exchangeAttempted = true) := by
  refine ⟨?_, ?_, ?_⟩
  · intro hbad
    unfold oauthGoogleCallback
    by_cases hc : truthy code = true
    · have hrest : ¬ truthy state = true ∨ cookieState ≠ state := by
        rcases hbad with hb | hb | hb
        · exact absurd hb (by rintro rfl; simp [truthy] at hc)
        · left
          rw [hb]
          simp [truthy]
        · exact Or.inr hb
      rw [if_neg (not_not_intro hc), if_pos hrest]
    · rw [if_pos hc]
  · intro hatt
    by_cases hc : truthy code = true
    · by_cases hst : truthy state = true
      · by_cases hck : cookieState = state
        · exact ⟨hc, hst, hck⟩
        · exfalso
          unfold oauthGoogleCallback at hatt
          rw [if_neg (not_not_intro hc), if_pos (Or.inr hck)] at hatt
          simp at hatt
      · exfalso
        unfold oauthGoogleCallback at hatt
        rw [if_neg (not_not_intro hc), if_pos (Or.inl hst)] at hatt
        simp at hatt
    · exfalso
      unfold oauthGoogleCallback at hatt
      rw [if_pos hc] at hatt
      simp at hatt
  · intro hsave
    unfold oauthGoogleCallback at hsave ⊢
    by_cases hc : truthy code = true
    · by_cases hm : ¬ truthy state = true ∨ cookieState ≠ state
      · rw [if_neg (not_not_intro hc), if_pos hm] at hsave
        simp at hsave
      · rw [if_neg (not_not_intro hc), if_neg hm] at hsave ⊢
        cases exchangeOk with
        | false => simp at hsave
        | true => simp
    · rw [if_pos hc] at hsave
      simp at hsave

/-- Claim C10 witness: a state/cookie mismatch yields the 400 with no
exchange; and a saved token on the happy path implies the exchange
happened. -/
theorem oauthCallback_guard_witness :
    ((some "s1" : Option String) ≠ some "s2" ∧
      oauthGoogleCallback (some "c") (some "s2") (some "s1") true =
        ⟨400, false, false⟩) ∧
    ((oauthGoogleCallback (some "c") (some "s2") (some "s2") true).tokenSaved = true →
      (oauthGoogleCallback (some "c") (some "s2") (some "s2") true).exchangeAttempted =
        true) :=
  ⟨⟨by decide,
    (oauthCallback_guard (some "c") (some "s2") (some "s1") true).1
      (Or.inr (Or.inr (by decide)))⟩,
   (oauthCallback_guard (some "c") (some "s2") (some "s2") true).2.2⟩

end Radstream
